import Mathlib

/-!
Formal model of the `dynatrace-db-query-monitor` Aurora collector.

The Python sources (`lambda_function.py`, `dynatrace/logs_client.py`,
`dynatrace/metrics_client.py`, `collectors/postgres_collector.py`) are
embedded shallowly: pure data transformations become Lean functions, and
the outcomes of external I/O (HTTP responses, secret fetches, the
database query, the wall clock) are passed in as explicit oracle
arguments.  Machine integers in the sources are Python arbitrary
precision integers, so they are modelled by `Int`/`Nat` directly.
Python dict mutation performed by `send_logs` (timestamp stamping of the
caller's entry dicts) is modelled by returning the post-call contents of
the caller's list alongside the result dict.
-/

namespace AuroraCollector

/-- A structured log entry, modelling a Python dict handed to
`DynatraceLogsClient.send_logs`.  `timestamp = none` models the absence
of the `timestamp` key; the remaining keys of the dict built by
`lambda_handler` are the `content` and `severity` fields plus the
free-form string attributes in `attrs`. -/
structure LogEntry where
  content : String := ""
  severity : String := "INFO"
  attrs : List (String × String) := []
  timestamp : Option Int := none
deriving DecidableEq

/-- Outcome of one HTTP POST to the logs ingest endpoint: a 2xx success,
an HTTPError raised by `response.raise_for_status()` (non-2xx status and
response text), or a transport-level RequestException. -/
inductive SendOutcome where
  | ok : SendOutcome
  | httpError (status : Nat) (text : String) : SendOutcome
  | reqError (msg : String) : SendOutcome
deriving DecidableEq

/-- The error string appended by `send_logs` for a failing batch
(logs_client.py lines 93-100), or `none` when the batch succeeded. -/
def outcome_error_msg : SendOutcome → Option String
  | .ok => none
  | .httpError status text => some ("HTTP " ++ toString status ++ ": " ++ text)
  | .reqError msg => some msg

/-- `log_entries[i : i + batch_size]` slicing of the batching loop
(logs_client.py line 70-71): the input list cut into consecutive chunks
of `batchSize` elements, the last one possibly shorter.  The Python loop
is only ever run with a positive batch size (default 100); the
`batchSize = 0` guard merely keeps the Lean function total. -/
def chunkList (batchSize : Nat) (l : List LogEntry) : List (List LogEntry) :=
  if h : l = [] ∨ batchSize = 0 then []
  else l.take batchSize :: chunkList batchSize (l.drop batchSize)
termination_by l.length
decreasing_by
  simp only [not_or] at h
  simp only [List.length_drop]
  exact Nat.sub_lt (List.length_pos.mpr h.1) (Nat.pos_of_ne_zero h.2)

/-- Lines 74-77 of logs_client.py: `current_time_ms` is computed once
for the batch, and every entry of the batch that lacks a `timestamp` key
is stamped (in place) with that single value `t`. -/
def stampBatch (t : Int) (batch : List LogEntry) : List LogEntry :=
  batch.map fun e => if e.timestamp.isSome then e else { e with timestamp := some t }

/-- The body of the batching loop of `send_logs` (logs_client.py lines
70-100), processing the chunks starting at batch index `k`.  `clock k`
is the `int(time.time() * 1000)` value observed for batch `k`, and
`outcome k` is the HTTP outcome of the POST for batch `k`.  Returns
(total_sent, errors, the post-call contents of each batch). -/
def send_logs_loop (clock : Nat → Int) (outcome : Nat → SendOutcome) :
    Nat → List (List LogEntry) → Nat × List String × List (List LogEntry)
  | _, [] => (0, [], [])
  | k, b :: bs =>
    let stamped := stampBatch (clock k) b
    let rest := send_logs_loop clock outcome (k + 1) bs
    match outcome_error_msg (outcome k) with
    | none => (stamped.length + rest.1, rest.2.1, stamped :: rest.2.2)
    | some m => (rest.1, m :: rest.2.1, stamped :: rest.2.2)

/-- The result dict of `send_logs`.  `total = none` and `errors = none`
model the absence of the `total` and `errors` keys from the returned
dict. -/
structure SendLogsResult where
  sent : Nat
  total : Option Nat
  errors : Option (List String)
deriving DecidableEq

/-- `DynatraceLogsClient.send_logs` (logs_client.py lines 40-107).
First component: the returned summary dict.  Second component: the
contents of the caller's `log_entries` list after the call — the dict
objects are mutated in place by the timestamp stamping (slicing copies
only the list spine, not the dicts), so the caller observes these
stamped entries. -/
def send_logs (batchSize : Nat) (clock : Nat → Int) (outcome : Nat → SendOutcome)
    (log_entries : List LogEntry) : SendLogsResult × List LogEntry :=
  if log_entries = [] then ({ sent := 0, total := none, errors := none }, log_entries)
  else
    let r := send_logs_loop clock outcome 0 (chunkList batchSize log_entries)
    ({ sent := r.1, total := some log_entries.length,
       errors := if r.2.1 = [] then none else some r.2.1 }, r.2.2.flatten)

/-- Number of HTTP POST requests issued by one `send_logs` call: zero on
the empty-input fast path (line 57-59), and otherwise one per loop
iteration — both the success and the failure paths of the loop body have
already issued the POST. -/
def log_request_count (batchSize : Nat) (log_entries : List LogEntry) : Nat :=
  if log_entries = [] then 0 else (chunkList batchSize log_entries).length

lemma chunkList_nil (batchSize : Nat) : chunkList batchSize [] = [] := by
  rw [chunkList]
  simp

lemma chunkList_cons {l : List LogEntry} (hS : batchSize ≠ 0) (hl : l ≠ []) :
    chunkList batchSize l = l.take batchSize :: chunkList batchSize (l.drop batchSize) := by
  rw [chunkList]
  simp [hS, hl]

lemma chunkList_length (hS : batchSize ≠ 0) :
    ∀ l : List LogEntry, (chunkList batchSize l).length = (l.length + batchSize - 1) / batchSize
  | l => by
    by_cases hl : l = []
    · subst hl
      rw [chunkList_nil]
      simp only [List.length_nil, Nat.zero_add]
      exact (Nat.div_eq_of_lt (by omega)).symm
    · rw [chunkList_cons hS hl]
      have hrec := chunkList_length hS (l.drop batchSize)
      have hlen : (l.drop batchSize).length = l.length - batchSize := List.length_drop ..
      have hpos : 0 < l.length := List.length_pos.mpr hl
      simp only [List.length_cons, hrec, hlen]
      rcases Nat.lt_or_ge l.length batchSize with hlt | hge
      · have h1 : l.length - batchSize = 0 := by omega
        rw [h1]
        have h2 : (0 + batchSize - 1) / batchSize = 0 := Nat.div_eq_of_lt (by omega)
        have h3 : (l.length + batchSize - 1) / batchSize = 1 :=
          Nat.div_eq_of_lt_le (by omega) (by omega)
        rw [h2, h3]
      · have h1 : l.length - batchSize + batchSize - 1 = l.length - 1 := by omega
        rw [h1]
        have h2 : l.length + batchSize - 1 = (l.length - 1) + batchSize := by omega
        rw [h2, Nat.add_div_right _ (Nat.pos_of_ne_zero hS)]
  termination_by l => l.length
  decreasing_by
    simp only [List.length_drop]
    exact Nat.sub_lt (List.length_pos.mpr hl) (Nat.pos_of_ne_zero hS)

lemma chunkList_join (hS : batchSize ≠ 0) :
    ∀ l : List LogEntry, (chunkList batchSize l).flatten = l
  | l => by
    by_cases hl : l = []
    · subst hl
      simp [chunkList_nil]
    · rw [chunkList_cons hS hl]
      have hrec := chunkList_join hS (l.drop batchSize)
      simp [List.flatten, hrec]
  termination_by l => l.length
  decreasing_by
    simp only [List.length_drop]
    exact Nat.sub_lt (List.length_pos.mpr hl) (Nat.pos_of_ne_zero hS)

/-- Closed form of the batching loop: sent count, error list and stamped
batches as functions of the indexed chunk list. -/
lemma send_logs_loop_eq (clock : Nat → Int) (outcome : Nat → SendOutcome) :
    ∀ (k : Nat) (bs : List (List LogEntry)),
      send_logs_loop clock outcome k bs =
        ( (((List.enumFrom k bs).filter
              (fun p => (outcome_error_msg (outcome p.1)).isNone)).map
              (fun p => p.2.length)).sum,
          (List.enumFrom k bs).filterMap (fun p => outcome_error_msg (outcome p.1)),
          (List.enumFrom k bs).map (fun p => stampBatch (clock p.1) p.2) )
  | k, [] => by simp [send_logs_loop]
  | k, b :: bs => by
    have hrec := send_logs_loop_eq clock outcome (k + 1) bs
    simp only [send_logs_loop, hrec, List.enumFrom]
    cases h : outcome_error_msg (outcome k) with
    | none =>
      simp [List.filter, List.filterMap, h, stampBatch]
    | some m =>
      simp [List.filter, List.filterMap, h, stampBatch]

/-- Positional form of the per-batch stamping: in the concatenation of
the stamped chunks (batch indices starting at `k`), the element at
position `i` is the original element at position `i`, stamped with the
clock value of its batch `k + i / batchSize` when its timestamp was
absent. -/
lemma stamped_getElem (hS : batchSize ≠ 0) :
    ∀ (l : List LogEntry) (k : Nat) (clock : Nat → Int) (i : Nat),
      (((List.enumFrom k (chunkList batchSize l)).map
          fun p => stampBatch (clock p.1) p.2).flatten)[i]? =
        (l[i]?).map fun e =>
          if e.timestamp.isSome then e
          else { e with timestamp := some (clock (k + i / batchSize)) }
  | l, k, clock, i => by
    by_cases hl : l = []
    · subst hl
      simp [chunkList_nil]
    · rw [chunkList_cons hS hl, List.enumFrom_cons]
      simp only [List.map_cons, List.flatten_cons]
      have hlt : (stampBatch (clock k) (l.take batchSize)).length = min batchSize l.length := by
        simp [stampBatch, List.length_take]
      rcases Nat.lt_or_ge i (min batchSize l.length) with hi | hi
      · rw [List.getElem?_append, if_pos (by omega : i < (stampBatch (clock k) (l.take batchSize)).length)]
        have hiS : i < batchSize := by omega
        have hdiv : i / batchSize = 0 := Nat.div_eq_of_lt hiS
        simp only [stampBatch, List.getElem?_map, List.getElem?_take, if_pos hiS, hdiv,
          Nat.add_zero]
      · rw [List.getElem?_append_right (by omega)]
        rw [hlt]
        rcases Nat.lt_or_ge l.length batchSize with hsmall | hbig
        · have h1 : l.drop batchSize = [] := by
            apply List.eq_nil_of_length_eq_zero
            simp only [List.length_drop]
            omega
          rw [h1, chunkList_nil]
          have h2 : l[i]? = none := by
            apply List.getElem?_eq_none
            omega
          simp [h2]
        · have hrec := stamped_getElem hS (l.drop batchSize) (k + 1) clock
            (i - min batchSize l.length)
          rw [hrec]
          have hmin : min batchSize l.length = batchSize := by omega
          rw [hmin] at hi ⊢
          have hidx : (l.drop batchSize)[i - batchSize]? = l[i]? := by
            rw [List.getElem?_drop]
            congr 1
            omega
          rw [hidx]
          have hdiv : k + 1 + (i - batchSize) / batchSize = k + i / batchSize := by
            have h4 : i / batchSize = (i - batchSize) / batchSize + 1 := by
              have h3 : i - batchSize + batchSize = i := by omega
              calc i / batchSize = (i - batchSize + batchSize) / batchSize := by rw [h3]
                _ = (i - batchSize) / batchSize + 1 :=
                    Nat.add_div_right _ (Nat.pos_of_ne_zero hS)
            omega
          rw [hdiv]
  termination_by l => l.length
  decreasing_by
    simp only [List.length_drop]
    exact Nat.sub_lt (List.length_pos.mpr hl) (Nat.pos_of_ne_zero hS)

lemma stamped_length (hS : batchSize ≠ 0) :
    ∀ (l : List LogEntry) (k : Nat) (clock : Nat → Int),
      (((List.enumFrom k (chunkList batchSize l)).map
          fun p => stampBatch (clock p.1) p.2).flatten).length = l.length
  | l, k, clock => by
    by_cases hl : l = []
    · subst hl
      simp [chunkList_nil]
    · rw [chunkList_cons hS hl, List.enumFrom_cons]
      simp only [List.map_cons, List.flatten_cons, List.length_append]
      have hrec := stamped_length hS (l.drop batchSize) (k + 1) clock
      rw [hrec]
      simp only [stampBatch, List.length_map, List.length_take, List.length_drop]
      have hpos : 0 < l.length := List.length_pos.mpr hl
      omega
  termination_by l => l.length
  decreasing_by
    simp only [List.length_drop]
    exact Nat.sub_lt (List.length_pos.mpr hl) (Nat.pos_of_ne_zero hS)

/-- The post-call contents of the caller's list, element by element:
position `i` is the original entry, stamped with the clock value of its
batch `i / batchSize` when it had no timestamp. -/
lemma send_logs_snd_getElem (hS : batchSize ≠ 0) (clock : Nat → Int)
    (outcome : Nat → SendOutcome) (l : List LogEntry) (i : Nat) :
    ((send_logs batchSize clock outcome l).2)[i]? =
      (l[i]?).map fun e =>
        if e.timestamp.isSome then e
        else { e with timestamp := some (clock (i / batchSize)) } := by
  by_cases hl : l = []
  · subst hl
    simp [send_logs]
  · rw [send_logs, if_neg hl]
    simp only
    rw [send_logs_loop_eq]
    have h := stamped_getElem hS l 0 clock i
    simpa using h

lemma send_logs_snd_length (hS : batchSize ≠ 0) (clock : Nat → Int)
    (outcome : Nat → SendOutcome) (l : List LogEntry) :
    ((send_logs batchSize clock outcome l).2).length = l.length := by
  by_cases hl : l = []
  · subst hl
    simp [send_logs]
  · rw [send_logs, if_neg hl]
    simp only
    rw [send_logs_loop_eq]
    have h := stamped_length hS l 0 clock
    simpa using h

/-- C1: for every list of B log entries and configured batch size S,
`send_logs` issues ceil(B/S) batch requests; a failing batch (transport
error or non-2xx response) contributes zero to the sent count and
appends exactly one descriptive string to the errors list; every batch
is attempted whatever the outcomes of the others; and the final sent
count is the total number of entries in the non-failing batches.  The
model is a total function over every assignment of per-batch HTTP
outcomes, which is the shallow-embedding form of "the call never raises
for a per-batch HTTP failure". -/
theorem claim_C1_log_batching (batchSize : Nat) (hS : 0 < batchSize)
    (clock : Nat → Int) (outcome : Nat → SendOutcome) (log_entries : List LogEntry) :
    log_request_count batchSize log_entries =
        (log_entries.length + batchSize - 1) / batchSize
    ∧ (send_logs batchSize clock outcome log_entries).1.sent =
        ((((chunkList batchSize log_entries).enum.filter
            (fun p => (outcome_error_msg (outcome p.1)).isNone)).map
            (fun p => p.2.length)).sum)
    ∧ ((send_logs batchSize clock outcome log_entries).1.errors.getD []) =
        (chunkList batchSize log_entries).enum.filterMap
          (fun p => outcome_error_msg (outcome p.1)) := by
  have hS' : batchSize ≠ 0 := Nat.pos_iff_ne_zero.mp hS
  by_cases hl : log_entries = []
  · subst hl
    have hc : chunkList batchSize ([] : List LogEntry) = [] := chunkList_nil batchSize
    refine ⟨?_, ?_, ?_⟩
    · have h0 : (([] : List LogEntry).length + batchSize - 1) / batchSize = 0 :=
        Nat.div_eq_of_lt (by simp only [List.length_nil]; omega)
      rw [h0]
      rfl
    · simp [send_logs, hc, List.enum]
    · simp [send_logs, hc, List.enum]
  · refine ⟨?_, ?_, ?_⟩
    · rw [log_request_count, if_neg hl, chunkList_length hS']
    · rw [send_logs, if_neg hl]
      simp only
      rw [send_logs_loop_eq]
      rfl
    · rw [send_logs, if_neg hl]
      simp only
      rw [send_logs_loop_eq]
      simp only [List.enum]
      by_cases he : (List.enumFrom 0 (chunkList batchSize log_entries)).filterMap
          (fun p => outcome_error_msg (outcome p.1)) = []
      · rw [he]
        simp [he]
      · simp [he]

def wClockC1 : Nat → Int := fun k => 1000 + k

def wOutcomeC1 : Nat → SendOutcome := fun k =>
  if k = 0 then .httpError 500 "Server Error" else .ok

def wEntriesC1 : List LogEntry :=
  [{ content := "a" }, { content := "b" }, { content := "c" }]

theorem claim_C1_log_batching_witness :
    0 < 2
    ∧ (log_request_count 2 wEntriesC1 = (wEntriesC1.length + 2 - 1) / 2
    ∧ (send_logs 2 wClockC1 wOutcomeC1 wEntriesC1).1.sent =
        ((((chunkList 2 wEntriesC1).enum.filter
            (fun p => (outcome_error_msg (wOutcomeC1 p.1)).isNone)).map
            (fun p => p.2.length)).sum)
    ∧ ((send_logs 2 wClockC1 wOutcomeC1 wEntriesC1).1.errors.getD []) =
        (chunkList 2 wEntriesC1).enum.filterMap
          (fun p => outcome_error_msg (wOutcomeC1 p.1))) :=
  ⟨by omega, claim_C1_log_batching 2 (by omega) wClockC1 wOutcomeC1 wEntriesC1⟩

/-- C3: in every batch sent by `send_logs`, an entry that already has a
timestamp keeps its value unchanged, and an entry without one is stamped
with the per-batch clock value; the entry at position `i` belongs to
batch `i / batchSize`, so all un-stamped entries of one batch receive
the identical value `clock (i / batchSize)` — the clock is evaluated
once per batch. -/
theorem claim_C3_timestamp_stamping (batchSize : Nat) (hS : 0 < batchSize)
    (clock : Nat → Int) (outcome : Nat → SendOutcome)
    (log_entries : List LogEntry) (i : Nat) (e : LogEntry)
    (he : log_entries[i]? = some e) :
    ((send_logs batchSize clock outcome log_entries).2)[i]? =
      some (if e.timestamp.isSome then e
            else { e with timestamp := some (clock (i / batchSize)) })
    ∧ ∀ (j : Nat) (f : LogEntry), log_entries[j]? = some f →
        j / batchSize = i / batchSize → f.timestamp = none →
        ((send_logs batchSize clock outcome log_entries).2)[j]? =
          some { f with timestamp := some (clock (i / batchSize)) } := by
  have hS' : batchSize ≠ 0 := Nat.pos_iff_ne_zero.mp hS
  constructor
  · rw [send_logs_snd_getElem hS', he]
    rfl
  · intro j f hf hbatch hnone
    rw [send_logs_snd_getElem hS', hf]
    simp [hnone, hbatch]

def wEntriesC3 : List LogEntry :=
  [{ content := "kept", timestamp := some 42 }, { content := "stamped" }]

theorem claim_C3_timestamp_stamping_witness :
    wEntriesC3[1]? = some { content := "stamped" }
    ∧ (((send_logs 2 wClockC1 (fun _ => SendOutcome.ok) wEntriesC3).2)[1]? =
        some (if ({ content := "stamped" } : LogEntry).timestamp.isSome then
                { content := "stamped" }
              else { ({ content := "stamped" } : LogEntry) with
                      timestamp := some (wClockC1 (1 / 2)) })
    ∧ ∀ (j : Nat) (f : LogEntry), wEntriesC3[j]? = some f →
        j / 2 = 1 / 2 → f.timestamp = none →
        ((send_logs 2 wClockC1 (fun _ => SendOutcome.ok) wEntriesC3).2)[j]? =
          some { f with timestamp := some (wClockC1 (1 / 2)) }) :=
  ⟨by decide,
   claim_C3_timestamp_stamping 2 (by omega) wClockC1 (fun _ => SendOutcome.ok)
     wEntriesC3 1 { content := "stamped" } (by decide)⟩

/-- C4 counterexample: on the empty input list, `send_logs` returns the
dict literal of logs_client.py line 59, which has a `sent` key only —
the result carries no `total` key, contradicting the claim that the
returned mapping contains a total count equal to the number of input
entries for every input list including the empty one. -/
theorem claim_C4_counterexample :
    (send_logs 100 (fun _ => 0) (fun _ => SendOutcome.ok) []).1.total = none
    ∧ (send_logs 100 (fun _ => 0) (fun _ => SendOutcome.ok) []).1.total ≠ some 0
    ∧ (send_logs 100 (fun _ => 0) (fun _ => SendOutcome.ok) []).1.sent = 0 := by
  refine ⟨rfl, ?_, rfl⟩
  intro h
  simp [send_logs] at h

/-- C4 (amended): for every non-empty input list, `send_logs` returns a
mapping with a sent count and with a total count equal to the number of
input entries, and with an errors list exactly when at least one batch
failed; for the empty list it performs no network call and returns a
zero-count result consisting of the `sent` key alone (no `total`, no
`errors` key). -/
theorem claim_C4_amended (batchSize : Nat) (hS : 0 < batchSize)
    (clock : Nat → Int) (outcome : Nat → SendOutcome) (log_entries : List LogEntry) :
    (log_entries = [] →
       send_logs batchSize clock outcome log_entries =
         ({ sent := 0, total := none, errors := none }, [])
       ∧ log_request_count batchSize log_entries = 0)
    ∧ (log_entries ≠ [] →
       (send_logs batchSize clock outcome log_entries).1.total =
         some log_entries.length
       ∧ ((send_logs batchSize clock outcome log_entries).1.errors.isSome ↔
            ∃ p ∈ (chunkList batchSize log_entries).enum,
              outcome_error_msg (outcome p.1) ≠ none)) := by
  constructor
  · intro hl
    subst hl
    exact ⟨rfl, rfl⟩
  · intro hl
    constructor
    · rw [send_logs, if_neg hl]
    · rw [send_logs, if_neg hl]
      simp only
      rw [send_logs_loop_eq]
      simp only [List.enum]
      by_cases he : (List.enumFrom 0 (chunkList batchSize log_entries)).filterMap
          (fun p => outcome_error_msg (outcome p.1)) = []
      · rw [if_pos he]
        rw [List.filterMap_eq_nil] at he
        simp only [Option.isSome_none, Bool.false_eq_true, false_iff]
        push_neg
        exact he
      · rw [if_neg he]
        rw [List.filterMap_eq_nil] at he
        push_neg at he
        simp only [Option.isSome_some, true_iff]
        exact he

def wEntriesC4 : List LogEntry := [{ content := "x" }]

theorem claim_C4_amended_witness :
    0 < 100
    ∧ ((wEntriesC4 = [] →
       send_logs 100 wClockC1 (fun _ => SendOutcome.reqError "boom") wEntriesC4 =
         ({ sent := 0, total := none, errors := none }, [])
       ∧ log_request_count 100 wEntriesC4 = 0)
    ∧ (wEntriesC4 ≠ [] →
       (send_logs 100 wClockC1 (fun _ => SendOutcome.reqError "boom") wEntriesC4).1.total =
         some wEntriesC4.length
       ∧ ((send_logs 100 wClockC1 (fun _ => SendOutcome.reqError "boom") wEntriesC4).1.errors.isSome ↔
            ∃ p ∈ (chunkList 100 wEntriesC4).enum,
              outcome_error_msg ((fun _ => SendOutcome.reqError "boom") p.1) ≠ none))) :=
  ⟨by omega,
   claim_C4_amended 100 (by omega) wClockC1 (fun _ => SendOutcome.reqError "boom") wEntriesC4⟩

/-- C10: `send_logs` mutates its input in place — the caller's list after
the call (the second component of the model) has the same length as the
input, and every entry of it carries a `timestamp` field, whatever the
per-batch outcomes were, so the property holds in particular for entries
of batches whose send failed; all other fields of each entry, and the
whole entry when it already had a timestamp, are unchanged. -/
theorem claim_C10_in_place_stamping (batchSize : Nat) (hS : 0 < batchSize)
    (clock : Nat → Int) (outcome : Nat → SendOutcome) (log_entries : List LogEntry) :
    ((send_logs batchSize clock outcome log_entries).2).length = log_entries.length
    ∧ ∀ (i : Nat) (e : LogEntry), log_entries[i]? = some e →
        ∃ f : LogEntry,
          ((send_logs batchSize clock outcome log_entries).2)[i]? = some f
          ∧ f.timestamp.isSome
          ∧ f.content = e.content ∧ f.severity = e.severity ∧ f.attrs = e.attrs
          ∧ (e.timestamp.isSome → f = e) := by
  have hS' : batchSize ≠ 0 := Nat.pos_iff_ne_zero.mp hS
  refine ⟨send_logs_snd_length hS' clock outcome log_entries, ?_⟩
  intro i e he
  rw [send_logs_snd_getElem hS', he]
  by_cases ht : e.timestamp.isSome
  · exact ⟨e, by simp [ht], ht, rfl, rfl, rfl, fun _ => rfl⟩
  · refine ⟨{ e with timestamp := some (clock (i / batchSize)) }, by simp [ht], ?_, rfl, rfl, rfl, ?_⟩
    · simp
    · intro h
      exact absurd h ht

theorem claim_C10_in_place_stamping_witness :
    0 < 1
    ∧ (((send_logs 1 wClockC1 (fun _ => SendOutcome.httpError 503 "down") wEntriesC3).2).length =
        wEntriesC3.length
    ∧ ∀ (i : Nat) (e : LogEntry), wEntriesC3[i]? = some e →
        ∃ f : LogEntry,
          ((send_logs 1 wClockC1 (fun _ => SendOutcome.httpError 503 "down") wEntriesC3).2)[i]? =
            some f
          ∧ f.timestamp.isSome
          ∧ f.content = e.content ∧ f.severity = e.severity ∧ f.attrs = e.attrs
          ∧ (e.timestamp.isSome → f = e)) :=
  ⟨by omega,
   claim_C10_in_place_stamping 1 (by omega) wClockC1
     (fun _ => SendOutcome.httpError 503 "down") wEntriesC3⟩

/-- One row returned by `PostgresCollector.get_long_running_queries`
(postgres_collector.py lines 63-86): the fields of `pg_stat_activity`
selected by the fixed query.  `duration_seconds` is
`EXTRACT(EPOCH FROM (now() - query_start))::integer`, an integer. -/
structure QueryRec where
  pid : Nat := 0
  usename : String := ""
  datname : String := ""
  state : String := ""
  wait_event_type : Option String := none
  wait_event : Option String := none
  duration_seconds : Int := 0
  query : String := ""
deriving DecidableEq

/-- One metric line of the Dynatrace line protocol as built by
`lambda_handler` (lambda_function.py lines 146-157):
`<key>,<dims> <value>`.  The numeric value is modelled as a rational;
Python renders count/max/total as integers and the average with the
float format `:.2f`, which is modelled by exact rational rounding to
hundredths (`roundTo2`). -/
structure MetricLine where
  key : String
  dims : String
  value : ℚ
deriving DecidableEq

/-- The `:.2f` two-decimal rendering of the average (lambda_function.py
line 150), modelled as exact rational rounding to hundredths. -/
def roundTo2 (q : ℚ) : ℚ := (round (100 * q) : ℤ) / 100

/-- Python's `max(iterable)` over a non-empty list of integers; the `[]`
case is unreachable in `lambda_handler` (guarded by `query_count > 0`). -/
def listMaxInt : List Int → Int
  | [] => 0
  | d :: ds => ds.foldl max d

lemma foldl_max_bounds (ds : List Int) : ∀ a : Int,
    a ≤ ds.foldl max a ∧ ∀ x ∈ ds, x ≤ ds.foldl max a := by
  induction ds with
  | nil => intro a; exact ⟨le_refl a, by simp⟩
  | cons y t ih =>
    intro a
    have h := ih (max a y)
    refine ⟨le_trans (le_max_left a y) h.1, ?_⟩
    intro x hx
    rcases List.mem_cons.mp hx with hx | hx
    · subst hx
      exact le_trans (le_max_right a x) h.1
    · exact h.2 x hx

lemma foldl_max_mem (ds : List Int) : ∀ a : Int,
    ds.foldl max a = a ∨ ds.foldl max a ∈ ds := by
  induction ds with
  | nil => intro a; exact Or.inl rfl
  | cons y t ih =>
    intro a
    rcases ih (max a y) with h | h
    · rcases max_choice a y with hm | hm
      · exact Or.inl (by rw [List.foldl_cons, h, hm])
      · refine Or.inr (List.mem_cons.mpr (Or.inl ?_))
        rw [List.foldl_cons, h, hm]
    · exact Or.inr (List.mem_cons.mpr (Or.inr (by rw [List.foldl_cons]; exact h)))

lemma listMaxInt_mem {d : Int} {ds : List Int} : listMaxInt (d :: ds) ∈ d :: ds := by
  rcases foldl_max_mem ds d with h | h
  · rw [listMaxInt, h]
    exact List.mem_cons_self d ds
  · exact List.mem_cons.mpr (Or.inr h)

lemma le_listMaxInt {d : Int} {ds : List Int} : ∀ x ∈ d :: ds, x ≤ listMaxInt (d :: ds) := by
  intro x hx
  rcases List.mem_cons.mp hx with hx | hx
  · subst hx
    exact (foldl_max_bounds ds x).1
  · exact (foldl_max_bounds ds d).2 x hx

/-- The dimension string shared by the four metric lines
(lambda_function.py lines 148-156). -/
def metricDims (dbName hostname : String) : String :=
  "db.type=postgres,db.name=" ++ dbName ++ ",host=" ++ hostname

/-- The metric-line derivation of `lambda_handler` (lambda_function.py
lines 140-157): for a non-empty activity set, the four lines count /
max_duration_seconds / avg_duration_seconds / total_duration_seconds;
for an empty set the single zero-valued count line. -/
def build_metrics (dbName hostname : String) (queries : List QueryRec) : List MetricLine :=
  let dims := metricDims dbName hostname
  match queries with
  | [] => [⟨"custom.db.long_queries.count", dims, 0⟩]
  | q :: qs =>
    let durs := (q :: qs).map fun r => r.duration_seconds
    let queryCount := (q :: qs).length
    let maxDuration := listMaxInt durs
    let totalDuration := durs.sum
    let avgDuration : ℚ := (totalDuration : ℚ) / (queryCount : ℚ)
    [⟨"custom.db.long_queries.count", dims, (queryCount : ℚ)⟩,
     ⟨"custom.db.long_queries.max_duration_seconds", dims, (maxDuration : ℚ)⟩,
     ⟨"custom.db.long_queries.avg_duration_seconds", dims, roundTo2 avgDuration⟩,
     ⟨"custom.db.long_queries.total_duration_seconds", dims, (totalDuration : ℚ)⟩]

/-- C2: an empty activity set yields exactly one metric line, the count
line with value 0; a set of N > 0 records yields exactly four lines —
count with value N, max with the maximum of the records'
duration_seconds (an attained upper bound), total with their sum, and
avg equal to total/N rounded to two decimals (a multiple of 1/100 within
1/200 of the exact quotient). -/
theorem claim_C2_metric_derivation (dbName hostname : String) (queries : List QueryRec) :
    (queries = [] → build_metrics dbName hostname queries =
      [⟨"custom.db.long_queries.count", metricDims dbName hostname, 0⟩])
    ∧ (queries ≠ [] →
        (build_metrics dbName hostname queries).length = 4
        ∧ (build_metrics dbName hostname queries)[0]? =
            some ⟨"custom.db.long_queries.count", metricDims dbName hostname,
                  (queries.length : ℚ)⟩
        ∧ (∃ m : Int,
            (build_metrics dbName hostname queries)[1]? =
              some ⟨"custom.db.long_queries.max_duration_seconds",
                    metricDims dbName hostname, (m : ℚ)⟩
            ∧ m ∈ queries.map (fun r => r.duration_seconds)
            ∧ ∀ d ∈ queries.map (fun r => r.duration_seconds), d ≤ m)
        ∧ (build_metrics dbName hostname queries)[3]? =
            some ⟨"custom.db.long_queries.total_duration_seconds",
                  metricDims dbName hostname,
                  (((queries.map fun r => r.duration_seconds).sum : Int) : ℚ)⟩
        ∧ (∃ z : ℤ,
            (build_metrics dbName hostname queries)[2]? =
              some ⟨"custom.db.long_queries.avg_duration_seconds",
                    metricDims dbName hostname, (z : ℚ) / 100⟩
            ∧ |(z : ℚ) / 100 -
                 (((queries.map fun r => r.duration_seconds).sum : Int) : ℚ) /
                   (queries.length : ℚ)| ≤ 1 / 200)) := by
  constructor
  · intro hq
    subst hq
    rfl
  · intro hq
    match queries with
    | [] => exact absurd rfl hq
    | q :: qs =>
      refine ⟨rfl, rfl, ?_, rfl, ?_⟩
      · exact ⟨listMaxInt ((q :: qs).map fun r : QueryRec => r.duration_seconds),
          rfl,
          (by
            have h := @listMaxInt_mem (q.duration_seconds)
              ((qs.map fun r => r.duration_seconds))
            simpa using h),
          (by
            intro d hd
            have h := @le_listMaxInt (q.duration_seconds)
              ((qs.map fun r => r.duration_seconds)) d (by simpa using hd)
            simpa using h)⟩
      · set avg : ℚ := ((((q :: qs).map fun r => r.duration_seconds).sum : Int) : ℚ) /
          (((q :: qs).length : Nat) : ℚ) with havg
        refine ⟨round (100 * avg), rfl, ?_⟩
        have h : |100 * avg - (round (100 * avg) : ℚ)| ≤ 1 / 2 := abs_sub_round (100 * avg)
        have h2 : (round (100 * avg) : ℚ) / 100 - avg =
            ((round (100 * avg) : ℚ) - 100 * avg) / 100 := by ring
        rw [h2, abs_div, abs_of_pos (show (0:ℚ) < 100 by norm_num),
          abs_sub_comm]
        calc |100 * avg - (round (100 * avg) : ℚ)| / 100 ≤ (1 / 2) / 100 :=
              (div_le_div_right (by norm_num)).mpr h
          _ = 1 / 200 := by norm_num

def wQ120 : QueryRec :=
  { pid := 101, usename := "app", datname := "appdb", state := "active",
    duration_seconds := 120, query := "SELECT 1" }

def wQ400 : QueryRec :=
  { pid := 102, usename := "app", datname := "appdb", state := "active",
    duration_seconds := 400, query := "SELECT 2" }

theorem claim_C2_metric_derivation_witness :
    build_metrics "appdb" "mycluster" ([] : List QueryRec) =
      [⟨"custom.db.long_queries.count", metricDims "appdb" "mycluster", 0⟩]
    ∧ (build_metrics "appdb" "mycluster" [wQ120, wQ400]).length = 4 :=
  ⟨(claim_C2_metric_derivation "appdb" "mycluster" []).1 rfl,
   ((claim_C2_metric_derivation "appdb" "mycluster" [wQ120, wQ400]).2 (by simp)).1⟩

/-- The severity expression of lambda_function.py line 167:
`"ERROR" if query["duration_seconds"] > 300 else "WARN"`. -/
def deriveSeverity (duration_seconds : Int) : String :=
  if duration_seconds > 300 then "ERROR" else "WARN"

/-- The log-entry dict built by `lambda_handler` for one query record
(lambda_function.py lines 168-182). -/
def build_log_entry (dbName hostname : String) (q : QueryRec) : LogEntry :=
  { content := q.query.take 10000,
    severity := deriveSeverity q.duration_seconds,
    attrs := [("log.source", "custom.db.long_running_query"),
              ("db.type", "postgres"),
              ("db.name", dbName),
              ("db.host", hostname),
              ("query.pid", toString q.pid),
              ("query.duration_seconds", toString q.duration_seconds),
              ("query.state", q.state),
              ("query.wait_event_type", q.wait_event_type.getD ""),
              ("query.wait_event", q.wait_event.getD ""),
              ("query.username", q.usename),
              ("query.database", q.datname)],
    timestamp := none }

/-- C5: the log entry derived for a query record carries severity ERROR
when duration_seconds > 300, and severity WARN when duration_seconds is
in (threshold, 300]. -/
theorem claim_C5_severity (dbName hostname : String) (threshold : Int) (q : QueryRec) :
    (300 < q.duration_seconds →
      (build_log_entry dbName hostname q).severity = "ERROR")
    ∧ (threshold < q.duration_seconds → q.duration_seconds ≤ 300 →
      (build_log_entry dbName hostname q).severity = "WARN") := by
  constructor
  · intro h
    simp only [build_log_entry, deriveSeverity]
    rw [if_pos h]
  · intro _h1 h2
    simp only [build_log_entry, deriveSeverity]
    rw [if_neg (not_lt.mpr h2)]

theorem claim_C5_severity_witness :
    ((300 : Int) < 400 ∧ (build_log_entry "appdb" "mycluster" wQ400).severity = "ERROR")
    ∧ ((60 : Int) < 120 ∧ (120 : Int) ≤ 300
        ∧ (build_log_entry "appdb" "mycluster" wQ120).severity = "WARN") :=
  ⟨⟨by norm_num, (claim_C5_severity "appdb" "mycluster" 60 wQ400).1 (by decide)⟩,
   ⟨by norm_num, by norm_num,
    (claim_C5_severity "appdb" "mycluster" 60 wQ120).2 (by decide) (by decide)⟩⟩

/-- Model of Python `int(str)` on the strings used for configuration:
surrounding whitespace is stripped, an optional single sign is accepted,
and the remainder must be one or more decimal digits; anything else
raises ValueError, modelled as `none`.  (Python's underscore digit
separators are not modelled; no configuration in the repo uses them.) -/
def pyStripChars (cs : List Char) : List Char :=
  ((cs.dropWhile Char.isWhitespace).reverse.dropWhile Char.isWhitespace).reverse

/-- Decimal value of a list of digit characters. -/
def digitsVal (cs : List Char) : Nat :=
  cs.foldl (fun n c => 10 * n + (c.toNat - 48)) 0

def pyInt? (s : String) : Option Int :=
  match pyStripChars s.data with
  | [] => none
  | c :: cs =>
    let neg := c == '-'
    let core := if c == '-' || c == '+' then cs else c :: cs
    if core.isEmpty then none
    else if core.all Char.isDigit then
      some (if neg then -(digitsVal core : Int) else (digitsVal core : Int))
    else none

/-- The ValueError message of Python `int()` on a non-numeric string. -/
def int_parse_error_msg (s : String) : String :=
  "invalid literal for int() with base 10: '" ++ s ++ "'"

/-- `config["aurora"]["host"].split(".")[0]` (lambda_function.py line
136): the prefix of the host before its first dot — the cluster
identifier — or the whole host when it contains no dot. -/
def hostClusterId (s : String) : String :=
  String.mk (s.data.takeWhile fun c => c != '.')

/-- The configuration assembled by `get_config`
(lambda_function.py lines 50-81). -/
structure Config where
  host : String
  port : Int
  database : String
  user : String
  password_secret_arn : String
  environment_url : String
  api_token_secret_arn : String
  threshold_seconds : Int
deriving DecidableEq

/-- The names of the `required` list of lambda_function.py lines 68-75,
in source order. -/
def requiredKeyNames : List String :=
  ["AURORA_HOST", "AURORA_DATABASE", "AURORA_USER", "AURORA_PASSWORD_SECRET_ARN",
   "DT_ENVIRONMENT_URL", "DT_API_TOKEN_SECRET_ARN"]

/-- Python truthiness of `os.environ.get(name)`: false for an unset
variable (None) and for the empty string. -/
def pyTruthyStr : Option String → Bool
  | none => false
  | some s => !s.isEmpty

/-- `missing = [name for name, value in required if not value]`
(lambda_function.py line 77). -/
def missingKeys (env : String → Option String) : List String :=
  requiredKeyNames.filter fun k => !pyTruthyStr (env k)

/-- `get_config` (lambda_function.py lines 50-81).  The config dict is
built first — so `int()` of AURORA_PORT and THRESHOLD_SECONDS runs
before the required-key validation — and then the missing required keys
are collected and reported in one ValueError. -/
def get_config (env : String → Option String) : Except String Config :=
  match pyInt? ((env "AURORA_PORT").getD "5432") with
  | none => .error (int_parse_error_msg ((env "AURORA_PORT").getD "5432"))
  | some port =>
    match pyInt? ((env "THRESHOLD_SECONDS").getD "60") with
    | none => .error (int_parse_error_msg ((env "THRESHOLD_SECONDS").getD "60"))
    | some threshold =>
      if missingKeys env = [] then
        .ok { host := (env "AURORA_HOST").getD "",
              port := port,
              database := (env "AURORA_DATABASE").getD "",
              user := (env "AURORA_USER").getD "",
              password_secret_arn := (env "AURORA_PASSWORD_SECRET_ARN").getD "",
              environment_url := (env "DT_ENVIRONMENT_URL").getD "",
              api_token_secret_arn := (env "DT_API_TOKEN_SECRET_ARN").getD "",
              threshold_seconds := threshold }
      else
        .error ("Missing required environment variables: " ++
          String.intercalate ", " (missingKeys env))

/-- Outcome of the single HTTP POST of
`DynatraceMetricsClient.send_metrics`: a 2xx response with the parsed
linesOk/linesInvalid counts, a non-2xx HTTPError, or a transport-level
RequestException (both re-raised, metrics_client.py lines 76-82). -/
inductive MetricsOutcome where
  | ok (linesOk linesInvalid : Nat)
  | httpErr (msg : String)
  | reqErr (msg : String)
deriving DecidableEq

/-- `DynatraceMetricsClient.send_metrics` (metrics_client.py lines
30-82): empty input short-circuits with a zero result and no request;
otherwise the single POST's outcome is returned on 2xx and re-raised
(modelled as `.error`) on HTTPError or RequestException. -/
def send_metrics (out : MetricsOutcome) (metrics : List MetricLine) :
    Except String (Nat × Nat) :=
  if metrics = [] then .ok (0, 0)
  else match out with
    | .ok a b => .ok (a, b)
    | .httpErr m => .error m
    | .reqErr m => .error m

/-- Externally observable I/O actions of one invocation, in order. -/
inductive Effect where
  | secretFetch (arn : String)
  | dbQuery
  | metricsPost
  | logsPost
deriving DecidableEq

/-- The body of the handler's response (lambda_function.py lines
193-204 and 208-211). -/
inductive LambdaBody where
  | success (message : String) (queries_found metrics_sent logs_sent : Nat)
      (execution_time_ms : ℚ)
  | failure (error : String)
deriving DecidableEq

structure LambdaResult where
  statusCode : Nat
  body : LambdaBody
deriving DecidableEq

/-- The external world of one invocation: the environment mapping, the
result of each Secrets Manager fetch, the collector's query result, the
HTTP outcomes of the metrics POST and of each logs POST, the wall
clock used for log timestamps, and the measured execution time. -/
structure HandlerWorld where
  env : String → Option String
  secretFetch : String → Except String String
  collect : Except String (List QueryRec)
  metricsOutcome : MetricsOutcome
  logsClock : Nat → Int
  logsOutcome : Nat → SendOutcome
  execTimeMs : ℚ

/-- `lambda_handler` (lambda_function.py lines 84-211).  Any raised
error is caught by the top-level handler and turned into a
statusCode-500 response whose body carries `str(e)`.  The logs client is
constructed with the default batch size 100; its result is only logged,
never inspected, so the success body is independent of the per-batch
log outcomes.  The second component lists the I/O effects performed. -/
def lambda_handler (w : HandlerWorld) : LambdaResult × List Effect :=
  match get_config w.env with
  | .error e => ({ statusCode := 500, body := .failure e }, [])
  | .ok config =>
    match w.secretFetch config.password_secret_arn with
    | .error e => ({ statusCode := 500, body := .failure e },
        [.secretFetch config.password_secret_arn])
    | .ok _db_password =>
      match w.secretFetch config.api_token_secret_arn with
      | .error e => ({ statusCode := 500, body := .failure e },
          [.secretFetch config.password_secret_arn,
           .secretFetch config.api_token_secret_arn])
      | .ok _dt_api_token =>
        match w.collect with
        | .error e => ({ statusCode := 500, body := .failure e },
            [.secretFetch config.password_secret_arn,
             .secretFetch config.api_token_secret_arn, .dbQuery])
        | .ok queries =>
          let hostname := hostClusterId config.host
          let db_name := config.database
          let metrics := build_metrics db_name hostname queries
          let effBase := [Effect.secretFetch config.password_secret_arn,
            Effect.secretFetch config.api_token_secret_arn, Effect.dbQuery] ++
            (if metrics = [] then [] else [Effect.metricsPost])
          match send_metrics w.metricsOutcome metrics with
          | .error e => ({ statusCode := 500, body := .failure e }, effBase)
          | .ok _metrics_result =>
            let query_count := queries.length
            let log_entries := queries.map (build_log_entry db_name hostname)
            let logEff := if query_count > 0 then
                List.replicate (log_request_count 100 log_entries) Effect.logsPost
              else []
            ({ statusCode := 200,
               body := .success "Collection completed successfully" query_count
                 metrics.length query_count w.execTimeMs },
             effBase ++ logEff)

lemma build_metrics_ne_nil (dbName hostname : String) (queries : List QueryRec) :
    build_metrics dbName hostname queries ≠ [] := by
  cases queries <;> simp [build_metrics]

/-- C6: with valid configuration, secrets and collector data, a non-2xx
response from the metrics ingestion endpoint makes `send_metrics` raise
(the caller gets a thrown error, never a partial result), and the error
propagates uncaught to a top-level statusCode-500 result whose body is
the error message; exactly one metrics POST is made (no retry) and no
logs POST happens after the failure. -/
theorem claim_C6_metrics_fatal (w : HandlerWorld) (config : Config) (m : String)
    (hc : get_config w.env = .ok config)
    (hs1 : ∃ s, w.secretFetch config.password_secret_arn = .ok s)
    (hs2 : ∃ s, w.secretFetch config.api_token_secret_arn = .ok s)
    (hq : ∃ qs, w.collect = .ok qs)
    (hm : w.metricsOutcome = .httpErr m) :
    (∀ metrics : List MetricLine, metrics ≠ [] →
        send_metrics (MetricsOutcome.httpErr m) metrics = .error m)
    ∧ (lambda_handler w).1 = { statusCode := 500, body := .failure m }
    ∧ (lambda_handler w).2.count Effect.metricsPost = 1
    ∧ Effect.logsPost ∉ (lambda_handler w).2 := by
  obtain ⟨s1, h1⟩ := hs1
  obtain ⟨s2, h2⟩ := hs2
  obtain ⟨qs, h3⟩ := hq
  have hne := build_metrics_ne_nil config.database (hostClusterId config.host) qs
  have hsm : send_metrics w.metricsOutcome
      (build_metrics config.database (hostClusterId config.host) qs) =
      .error m := by
    rw [hm, send_metrics, if_neg hne]
  have hh : lambda_handler w =
      ({ statusCode := 500, body := .failure m },
       [Effect.secretFetch config.password_secret_arn,
        Effect.secretFetch config.api_token_secret_arn, Effect.dbQuery] ++
        [Effect.metricsPost]) := by
    unfold lambda_handler
    rw [hc]
    dsimp only
    rw [h1]
    dsimp only
    rw [h2]
    dsimp only
    rw [h3]
    dsimp only
    rw [hsm, if_neg hne]
  refine ⟨?_, ?_, ?_, ?_⟩
  · intro metrics hmet
    rw [send_metrics, if_neg hmet]
  · rw [hh]
  · rw [hh]
    simp [List.count_cons, List.count_nil]
  · rw [hh]
    simp

def wEnvOK : String → Option String := fun k =>
  if k = "AURORA_HOST" then some "mycluster.cluster-x.rds.amazonaws.com"
  else if k = "AURORA_DATABASE" then some "appdb"
  else if k = "AURORA_USER" then some "monitor"
  else if k = "AURORA_PASSWORD_SECRET_ARN" then some "arn:pw"
  else if k = "DT_ENVIRONMENT_URL" then some "https://env.dynatrace.com"
  else if k = "DT_API_TOKEN_SECRET_ARN" then some "arn:token"
  else none

def wConfig : Config :=
  { host := "mycluster.cluster-x.rds.amazonaws.com", port := 5432,
    database := "appdb", user := "monitor", password_secret_arn := "arn:pw",
    environment_url := "https://env.dynatrace.com",
    api_token_secret_arn := "arn:token", threshold_seconds := 60 }

def wWorldC6 : HandlerWorld :=
  { env := wEnvOK, secretFetch := fun _ => .ok "secretvalue", collect := .ok [],
    metricsOutcome := .httpErr "HTTP 403: forbidden", logsClock := fun _ => 0,
    logsOutcome := fun _ => .ok, execTimeMs := 0 }

theorem claim_C6_metrics_fatal_witness :
    get_config wWorldC6.env = .ok wConfig
    ∧ ((∀ metrics : List MetricLine, metrics ≠ [] →
        send_metrics (MetricsOutcome.httpErr "HTTP 403: forbidden") metrics =
          .error "HTTP 403: forbidden")
    ∧ (lambda_handler wWorldC6).1 =
        { statusCode := 500, body := .failure "HTTP 403: forbidden" }
    ∧ (lambda_handler wWorldC6).2.count Effect.metricsPost = 1
    ∧ Effect.logsPost ∉ (lambda_handler wWorldC6).2) :=
  ⟨rfl,
   claim_C6_metrics_fatal wWorldC6 wConfig "HTTP 403: forbidden" rfl
     ⟨"secretvalue", rfl⟩ ⟨"secretvalue", rfl⟩ ⟨[], rfl⟩ rfl⟩

/-- Whether `needle` occurs at the start of `hay`. -/
def startsList : List Char → List Char → Bool
  | [], _ => true
  | _ :: _, [] => false
  | a :: as, b :: bs => a == b && startsList as bs

/-- Whether `needle` occurs contiguously anywhere inside `hay`. -/
def hasSubList (needle : List Char) : List Char → Bool
  | [] => startsList needle []
  | b :: bs => startsList needle (b :: bs) || hasSubList needle bs

def wEnvBadPort : String → Option String := fun k =>
  if k = "AURORA_PORT" then some "abc" else none

def wWorldBadPort : HandlerWorld :=
  { env := wEnvBadPort, secretFetch := fun _ => .ok "", collect := .ok [],
    metricsOutcome := .ok 0 0, logsClock := fun _ => 0,
    logsOutcome := fun _ => .ok, execTimeMs := 0 }

/-- C7 counterexample: in an environment where every required key is
unset but AURORA_PORT is set to the non-numeric string "abc", the
`int()` call inside the config-dict construction raises before the
required-key validation runs, so the 500 response carries the integer
parse error — a message that does not name AURORA_HOST (or any other
missing key), contradicting the claim for this environment. -/
theorem claim_C7_counterexample :
    (lambda_handler wWorldBadPort).1 =
      { statusCode := 500,
        body := .failure "invalid literal for int() with base 10: 'abc'" }
    ∧ "AURORA_HOST" ∈ missingKeys wEnvBadPort
    ∧ hasSubList "AURORA_HOST".data
        "invalid literal for int() with base 10: 'abc'".data = false := by
  refine ⟨?_, by decide, by decide⟩
  rfl

/-- C7 (amended): in every environment in which one or more required
configuration keys are unset or empty — provided the optional integer
variables AURORA_PORT and THRESHOLD_SECONDS, when set, parse as
integers (they do in particular when unset, via their defaults) — the
invocation returns statusCode 500 with an error message naming every
missing key, no secret fetch, database access or network call is
attempted, and the listed keys are exactly the required keys that are
unset or empty.  (When one of the two integer variables does not parse,
the invocation still fails with 500 before any I/O, but the message is
the integer-parse error instead.) -/
theorem claim_C7_amended (w : HandlerWorld) (port threshold : Int)
    (hp : pyInt? ((w.env "AURORA_PORT").getD "5432") = some port)
    (ht : pyInt? ((w.env "THRESHOLD_SECONDS").getD "60") = some threshold)
    (hmiss : missingKeys w.env ≠ []) :
    (lambda_handler w).1.statusCode = 500
    ∧ (lambda_handler w).1.body = .failure
        ("Missing required environment variables: " ++
          String.intercalate ", " (missingKeys w.env))
    ∧ (lambda_handler w).2 = []
    ∧ ∀ k, k ∈ missingKeys w.env ↔
        (k ∈ requiredKeyNames ∧ pyTruthyStr (w.env k) = false) := by
  have hcfg : get_config w.env = .error
      ("Missing required environment variables: " ++
        String.intercalate ", " (missingKeys w.env)) := by
    rw [get_config, hp]
    dsimp only
    rw [ht]
    dsimp only
    rw [if_neg hmiss]
  have hh : lambda_handler w =
      ({ statusCode := 500,
         body := .failure ("Missing required environment variables: " ++
           String.intercalate ", " (missingKeys w.env)) }, []) := by
    unfold lambda_handler
    rw [hcfg]
  refine ⟨by rw [hh], by rw [hh], by rw [hh], ?_⟩
  intro k
  rw [missingKeys, List.mem_filter]
  constructor
  · rintro ⟨h1, h2⟩
    exact ⟨h1, by simpa using h2⟩
  · rintro ⟨h1, h2⟩
    exact ⟨h1, by simpa using h2⟩

def wEnvEmpty : String → Option String := fun _ => none

def wWorldEmptyEnv : HandlerWorld :=
  { env := wEnvEmpty, secretFetch := fun _ => .ok "", collect := .ok [],
    metricsOutcome := .ok 0 0, logsClock := fun _ => 0,
    logsOutcome := fun _ => .ok, execTimeMs := 0 }

theorem claim_C7_amended_witness :
    pyInt? ((wWorldEmptyEnv.env "AURORA_PORT").getD "5432") = some 5432
    ∧ pyInt? ((wWorldEmptyEnv.env "THRESHOLD_SECONDS").getD "60") = some 60
    ∧ missingKeys wWorldEmptyEnv.env ≠ []
    ∧ ((lambda_handler wWorldEmptyEnv).1.statusCode = 500
       ∧ (lambda_handler wWorldEmptyEnv).1.body = .failure
          ("Missing required environment variables: " ++
            String.intercalate ", " (missingKeys wWorldEmptyEnv.env))
       ∧ (lambda_handler wWorldEmptyEnv).2 = []
       ∧ ∀ k, k ∈ missingKeys wWorldEmptyEnv.env ↔
           (k ∈ requiredKeyNames ∧ pyTruthyStr (wWorldEmptyEnv.env k) = false)) :=
  ⟨rfl, rfl, by decide,
   claim_C7_amended wWorldEmptyEnv 5432 60 rfl rfl (by decide)⟩

/-- C9: on every successful invocation the result body reports
queries_found and logs_sent both equal to the number of collected
records and metrics_sent equal to the number of metric lines built —
whatever the per-batch log outcomes in `w.logsOutcome` are (the model
never reads them for the response), and whatever acceptance counts the
metrics backend reported. -/
theorem claim_C9_reported_counts (w : HandlerWorld) (config : Config)
    (qs : List QueryRec) (a b : Nat)
    (hc : get_config w.env = .ok config)
    (hs1 : ∃ s, w.secretFetch config.password_secret_arn = .ok s)
    (hs2 : ∃ s, w.secretFetch config.api_token_secret_arn = .ok s)
    (hq : w.collect = .ok qs)
    (hm : w.metricsOutcome = .ok a b) :
    (lambda_handler w).1.statusCode = 200
    ∧ (lambda_handler w).1.body =
        .success "Collection completed successfully" qs.length
          (build_metrics config.database (hostClusterId config.host) qs).length
          qs.length w.execTimeMs := by
  obtain ⟨s1, h1⟩ := hs1
  obtain ⟨s2, h2⟩ := hs2
  have hne := build_metrics_ne_nil config.database (hostClusterId config.host) qs
  have hsm : send_metrics w.metricsOutcome
      (build_metrics config.database (hostClusterId config.host) qs) =
      .ok (a, b) := by
    rw [hm, send_metrics, if_neg hne]
  have hh : (lambda_handler w).1 =
      { statusCode := 200,
        body := .success "Collection completed successfully" qs.length
          (build_metrics config.database (hostClusterId config.host) qs).length
          qs.length w.execTimeMs } := by
    unfold lambda_handler
    rw [hc]
    dsimp only
    rw [h1]
    dsimp only
    rw [h2]
    dsimp only
    rw [hq]
    dsimp only
    rw [hsm]
  exact ⟨by rw [hh], by rw [hh]⟩

def wWorldC9 : HandlerWorld :=
  { env := wEnvOK, secretFetch := fun _ => .ok "secretvalue",
    collect := .ok [wQ120, wQ400], metricsOutcome := .ok 4 0,
    logsClock := fun _ => 1700000000000,
    logsOutcome := fun _ => .reqError "connection reset", execTimeMs := 12 }

theorem claim_C9_reported_counts_witness :
    get_config wWorldC9.env = .ok wConfig
    ∧ ((lambda_handler wWorldC9).1.statusCode = 200
    ∧ (lambda_handler wWorldC9).1.body =
        .success "Collection completed successfully" ([wQ120, wQ400] : List QueryRec).length
          (build_metrics wConfig.database (hostClusterId wConfig.host)
            [wQ120, wQ400]).length
          ([wQ120, wQ400] : List QueryRec).length wWorldC9.execTimeMs) :=
  ⟨rfl,
   claim_C9_reported_counts wWorldC9 wConfig [wQ120, wQ400] 4 0 rfl
     ⟨"secretvalue", rfl⟩ ⟨"secretvalue", rfl⟩ rfl rfl⟩

/-- A parsed Python JSON value — the result of a successful
`json.loads`. -/
inductive PyJson where
  | null
  | bool (b : Bool)
  | num (n : Int)
  | str (s : String)
  | arr (elems : List PyJson)
  | obj (fields : List (String × PyJson))

/-- Python truthiness of a JSON value, as tested by the `or` chain of
lambda_function.py line 43. -/
def pyTruthy : PyJson → Bool
  | .null => false
  | .bool b => b
  | .num n => n != 0
  | .str s => !s.isEmpty
  | .arr elems => !elems.isEmpty
  | .obj fields => !fields.isEmpty

/-- Python `dict.get(k)`: the value of the first matching key, `None`
(here `none`) when absent. -/
def pyGet (fields : List (String × PyJson)) (k : String) : Option PyJson :=
  (fields.find? fun p => p.1 == k).map fun p => p.2

/-- The Python type name appearing in the AttributeError raised by
`.get` on a non-dict value. -/
def pyTypeName : PyJson → String
  | .null => "NoneType"
  | .bool _ => "bool"
  | .num _ => "int"
  | .str _ => "str"
  | .arr _ => "list"
  | .obj _ => "dict"

def pyIsObj : PyJson → Bool
  | .obj _ => true
  | .null | .bool _ | .num _ | .str _ | .arr _ => false

/-- `get_secret` (lambda_function.py lines 31-47) applied to the
Secrets Manager response.  `secretString = none` models a response with
no SecretString key (line 47 raises ValueError).  `decoded` is the
outcome of `json.loads(secret)`: `none` when it raises JSONDecodeError
(caught at line 44, returning the raw string), otherwise the parsed
value.  On a parsed dict, line 43 returns the first truthy of
`get("password")`, `get("apiToken")` and the raw string; on a parsed
non-dict, `.get` raises AttributeError, which is not caught (only
JSONDecodeError is). -/
def get_secret (secret_arn : String) (secretString : Option String)
    (decoded : Option PyJson) : Except String PyJson :=
  match secretString with
  | none => .error ("Secret " ++ secret_arn ++ " does not contain a string value")
  | some secret =>
    match decoded with
    | none => .ok (.str secret)
    | some (.obj fields) =>
      let p := (pyGet fields "password").getD .null
      if pyTruthy p then .ok p
      else
        let a := (pyGet fields "apiToken").getD .null
        if pyTruthy a then .ok a
        else .ok (.str secret)
    | some j => .error ("AttributeError: '" ++ pyTypeName j ++
        "' object has no attribute 'get'")

/-- C8 counterexample: the fetched secret value "123" is JSON-encoded
(`json.loads("123")` succeeds and yields the int 123, a non-dict), so
the claim requires resolution to fall back to the raw string "123"; the
code instead calls `.get` on the parsed int and raises AttributeError —
only JSONDecodeError is caught — so resolution fails rather than
returning the raw string. -/
theorem claim_C8_counterexample :
    get_secret "arn:secret" (some "123") (some (PyJson.num 123)) =
      .error "AttributeError: 'int' object has no attribute 'get'"
    ∧ get_secret "arn:secret" (some "123") (some (PyJson.num 123)) ≠
      .ok (.str "123") := by
  refine ⟨rfl, fun h => ?_⟩
  rw [show get_secret "arn:secret" (some "123") (some (PyJson.num 123)) =
    .error "AttributeError: 'int' object has no attribute 'get'" from rfl] at h
  exact Except.noConfusion h

/-- C8 (amended): for every fetched secret value — if `json.loads`
fails, the raw string is returned unchanged; if it yields a JSON
object, resolution returns its password field when present and
non-empty, otherwise its apiToken field when present and non-empty,
otherwise the raw string; if it yields any non-object JSON value
(number, string, boolean, array, null), resolution raises an
AttributeError instead of returning the raw string. -/
theorem claim_C8_amended (secret_arn secret : String)
    (fields : List (String × PyJson)) :
    get_secret secret_arn (some secret) none = .ok (.str secret)
    ∧ (∀ p : String, pyGet fields "password" = some (.str p) → p ≠ "" →
        get_secret secret_arn (some secret) (some (.obj fields)) = .ok (.str p))
    ∧ (∀ a : String,
        (pyGet fields "password" = none ∨ pyGet fields "password" = some (.str "")) →
        pyGet fields "apiToken" = some (.str a) → a ≠ "" →
        get_secret secret_arn (some secret) (some (.obj fields)) = .ok (.str a))
    ∧ ((pyGet fields "password" = none ∨ pyGet fields "password" = some (.str "")) →
       (pyGet fields "apiToken" = none ∨ pyGet fields "apiToken" = some (.str "")) →
        get_secret secret_arn (some secret) (some (.obj fields)) = .ok (.str secret))
    ∧ (∀ j : PyJson, pyIsObj j = false →
        get_secret secret_arn (some secret) (some j) =
          .error ("AttributeError: '" ++ pyTypeName j ++
            "' object has no attribute 'get'")) := by
  refine ⟨rfl, ?_, ?_, ?_, ?_⟩
  · intro p hp hne
    have hb : p.isEmpty = false := by
      cases hq : p.isEmpty
      · rfl
      · exact absurd ((String.isEmpty_iff p).mp hq) hne
    have hne2 : pyTruthy (.str p) = true := by
      simp [pyTruthy, hb]
    simp only [get_secret, hp, Option.getD_some]
    rw [if_pos hne2]
  · intro a hpw ha hne
    have hb : a.isEmpty = false := by
      cases hq : a.isEmpty
      · rfl
      · exact absurd ((String.isEmpty_iff a).mp hq) hne
    have hne2 : pyTruthy (.str a) = true := by
      simp [pyTruthy, hb]
    rcases hpw with hpw | hpw
    · simp only [get_secret, hpw, ha, Option.getD_none, Option.getD_some]
      rw [if_neg (by decide), if_pos hne2]
    · simp only [get_secret, hpw, ha, Option.getD_some]
      rw [if_neg (by decide), if_pos hne2]
  · intro hpw hat
    rcases hpw with hpw | hpw <;> rcases hat with hat | hat <;>
      simp only [get_secret, hpw, hat, Option.getD_none, Option.getD_some] <;>
      rw [if_neg (by decide), if_neg (by decide)]
  · intro j hj
    cases j with
    | null => rfl
    | bool b => rfl
    | num n => rfl
    | str s => rfl
    | arr elems => rfl
    | obj fields2 => simp [pyIsObj] at hj

def wFieldsBoth : List (String × PyJson) :=
  [("password", .str "pw1"), ("apiToken", .str "tok")]

def wFieldsTok : List (String × PyJson) := [("apiToken", .str "tok")]

theorem claim_C8_amended_witness :
    get_secret "arn:s" (some "raw") none = .ok (.str "raw")
    ∧ get_secret "arn:s" (some "raw") (some (.obj wFieldsBoth)) = .ok (.str "pw1")
    ∧ get_secret "arn:s" (some "raw") (some (.obj wFieldsTok)) = .ok (.str "tok")
    ∧ get_secret "arn:s" (some "raw") (some (.obj [])) = .ok (.str "raw")
    ∧ get_secret "arn:s" (some "raw") (some (.num 7)) =
        .error "AttributeError: 'int' object has no attribute 'get'" :=
  ⟨(claim_C8_amended "arn:s" "raw" wFieldsBoth).1,
   (claim_C8_amended "arn:s" "raw" wFieldsBoth).2.1 "pw1" rfl (by decide),
   (claim_C8_amended "arn:s" "raw" wFieldsTok).2.2.1 "tok" (Or.inl rfl) rfl (by decide),
   (claim_C8_amended "arn:s" "raw" []).2.2.2.1 (Or.inl rfl) (Or.inl rfl),
   (claim_C8_amended "arn:s" "raw" []).2.2.2.2 (.num 7) rfl⟩

end AuroraCollector
